import Mathlib

/-
Verification development for the db-rag repository: a shallow embedding of
the query-orchestration and dual-retrieval core (orchestrator, SQL agent,
vector agent, metadata catalog manager, document chunking) with theorems
settling the frozen claims about it.

Modelling conventions:
* External effects (OpenAI chat/embedding calls, the relational store) are
  explicit oracle parameters; a Python exception is `Except.error`.
* Similarity scores are rationals; the pgvector cosine-distance operator is
  an abstract parameter `dist`.
* Python dicts are structures; a key that is absent or holds None is
  modelled as `Option.none` (the distinction is noted where a claim needs it).
* Model-call counts are returned alongside results where a claim talks
  about whether the LLM / embedding provider was invoked.
-/

namespace DbRag

/- ------------------------------------------------------------------ -/
/- String and character constants (Python literals from the source)   -/
/- ------------------------------------------------------------------ -/

def emptyS : String := ""

def spaceS : String := " "

def nlS : String := "\n"

def pipeS : String := "|"

def keyDesc : String := "DESCRIPTION:"

def keyCtx : String := "BUSINESS_CONTEXT:"

def keySQ : String := "SAMPLE_QUESTIONS:"

def fallbackDescPre : String := "Database table: "

def fallbackCtx : String := "Stores structured data for analytical queries"

def errNoTables : String := "No relevant tables found for this query"

def errGenPre : String := "Failed to generate SQL: "

def agentSqlName : String := "query_structured_data"

def agentVecName : String := "search_unstructured_documents"

def errRoute : String := "Unable to route query to specific agent"

def defaultAnswer : String := "Unable to process query"

/- ------------------------------------------------------------------ -/
/- Basic data model                                                   -/
/- ------------------------------------------------------------------ -/

/-- Embedding vectors are fixed-length float vectors in the source; we model
them as rational lists. -/
abbrev Vec := List ℚ

/-- A relational result row: column-name-keyed record (values as text). -/
abbrev Row := List (String × String)

/-- One row of the `table_metadata_catalog` table
(src/backend/metadata_catalog.py, initialize_catalog_table). -/
structure CatalogEntry where
  table_name : String
  column_definitions : String
  table_description : String
  business_context : String
  sample_queries : List String
  description_embedding : Vec
deriving DecidableEq, Repr

/-- One row returned by `discover_relevant_tables` (the SELECT list of each
of its three queries, including the computed or synthetic similarity). -/
structure DiscoveredTable where
  table_name : String
  table_description : String
  business_context : String
  column_definitions : String
  sample_queries : List String
  similarity : ℚ
deriving DecidableEq, Repr

/- ------------------------------------------------------------------ -/
/- Substring matching (Python `in`, SQL `LIKE '%q%'`)                  -/
/- ------------------------------------------------------------------ -/

/-- Bool substring test on char lists: `needle` occurs inside `hay`. -/
def containsSub (hay needle : String) : Bool :=
  hay.toList.tails.any (fun t => needle.toList.isPrefixOf t)

/-- Case-insensitive substring test: models `LOWER(field) LIKE '%q_lower%'`
with a pattern free of LIKE wildcards (the normal case). -/
def containsLower (hay needle : String) : Bool :=
  containsSub hay.toLower needle.toLower

/- ------------------------------------------------------------------ -/
/- A small insertion sort (models SQL ORDER BY deterministically)     -/
/- ------------------------------------------------------------------ -/

def insertLe {α : Type} (le : α → α → Bool) (a : α) : List α → List α
  | [] => [a]
  | b :: bs => if le a b then a :: b :: bs else b :: insertLe le a bs

def sortLe {α : Type} (le : α → α → Bool) : List α → List α
  | [] => []
  | a :: as => insertLe le a (sortLe le as)

/- ------------------------------------------------------------------ -/
/- MetadataCatalogManager.discover_relevant_tables                    -/
/- (src/backend/metadata_catalog.py lines 255-341)                    -/
/- ------------------------------------------------------------------ -/

namespace MetadataCatalogManager

/-- Similarity floor of the vector tier: `WHERE 1 - (emb <=> q) > 0.3`. -/
def simFloor : ℚ := 3/10

/-- Synthetic similarity of the keyword tier: `SELECT ... 0.5 as similarity`. -/
def keywordSim : ℚ := 1/2

/-- Synthetic similarity of the final tier: `SELECT ... 0.3 as similarity`. -/
def allSim : ℚ := 3/10

/-- Tier 1: vector similarity search. Filter by the floor, order by cosine
distance ascending, `LIMIT max_tables`; similarity column is the computed
`1 - distance`. -/
def vectorTier (dist : Vec → Vec → ℚ) (catalog : List CatalogEntry)
    (qe : Vec) (max_tables : ℕ) : List DiscoveredTable :=
  ((sortLe
      (fun a b =>
        decide (dist a.description_embedding qe ≤ dist b.description_embedding qe))
      (catalog.filter
        (fun e => decide (simFloor < 1 - dist e.description_embedding qe)))).take
    max_tables).map
    (fun e => ⟨e.table_name, e.table_description, e.business_context,
      e.column_definitions, e.sample_queries, 1 - dist e.description_embedding qe⟩)

/-- The keyword tier's WHERE clause: the whole lowercased question as a
substring of the lowercased table name, description, business context, or
column definitions. -/
def keywordPred (user_query : String) (e : CatalogEntry) : Bool :=
  containsLower e.table_name user_query ||
  containsLower e.table_description user_query ||
  containsLower e.business_context user_query ||
  containsLower e.column_definitions user_query

/-- Tier 2: keyword substring matching, `LIMIT max_tables` with no ORDER BY
(modelled as catalog order); similarity is the constant 0.5. -/
def keywordTier (catalog : List CatalogEntry) (user_query : String)
    (max_tables : ℕ) : List DiscoveredTable :=
  ((catalog.filter (keywordPred user_query)).take max_tables).map
    (fun e => ⟨e.table_name, e.table_description, e.business_context,
      e.column_definitions, e.sample_queries, keywordSim⟩)

/-- Tier 3: return up to `max_tables` arbitrary catalog entries; similarity
is the constant 0.3. -/
def allTier (catalog : List CatalogEntry) (max_tables : ℕ) : List DiscoveredTable :=
  (catalog.take max_tables).map
    (fun e => ⟨e.table_name, e.table_description, e.business_context,
      e.column_definitions, e.sample_queries, allSim⟩)

/-- `discover_relevant_tables`: the question embedding is generated OUTSIDE
any try block (`generate_embedding` re-raises its failures, lines 138-156
and 266-267), so an embedding failure propagates; after that, the three
tiers fire in order on emptiness of the previous tier's result set. -/
def discover_relevant_tables (dist : Vec → Vec → ℚ)
    (embedO : String → Except String Vec) (catalog : List CatalogEntry)
    (user_query : String) (max_tables : ℕ) : Except String (List DiscoveredTable) :=
  match embedO user_query with
  | .error e => .error e
  | .ok qe =>
    let r1 := vectorTier dist catalog qe max_tables
    if r1.isEmpty then
      let r2 := keywordTier catalog user_query max_tables
      if r2.isEmpty then .ok (allTier catalog max_tables) else .ok r2
    else .ok r1

end MetadataCatalogManager

/- ------------------------------------------------------------------ -/
/- MetadataCatalogManager: catalog sync                               -/
/- (src/backend/metadata_catalog.py lines 69-231)                     -/
/- ------------------------------------------------------------------ -/

namespace MetadataCatalogManager

/-- Parsed output of `generate_table_description` (the dict with
description, business_context, sample_questions). -/
structure DescResult where
  description : String
  business_context : String
  sample_questions : List String
deriving DecidableEq, Repr

/-- One line of the fixed three-line response format. Mirrors the
`line.startswith` / `line.replace(key, "").strip()` parsing. -/
def parseDescLine (acc : DescResult) (line : String) : DescResult :=
  if line.startsWith keyDesc then
    { acc with description := (line.replace keyDesc emptyS).trim }
  else if line.startsWith keyCtx then
    { acc with business_context := (line.replace keyCtx emptyS).trim }
  else if line.startsWith keySQ then
    { acc with sample_questions :=
        ((line.replace keySQ emptyS).trim.splitOn pipeS).map String.trim }
  else acc

/-- `content.strip().split("\n")` folded through the per-line parser,
starting from empty fields. -/
def parseDescription (content : String) : DescResult :=
  (content.trim.splitOn nlS).foldl parseDescLine ⟨emptyS, emptyS, []⟩

/-- `generate_table_description`: one chat-model call; on any failure of
that call, fall back to the minimal synthetic description instead of
raising. Returns the result and the number of chat-model calls made (the
oracle is keyed by table name: it stands for the model's response to the
prompt built for that table). -/
def generate_table_description (chatO : String → Except String String)
    (table_name : String) : DescResult × ℕ :=
  match chatO table_name with
  | .ok content => (parseDescription content, 1)
  | .error _ => (⟨fallbackDescPre ++ table_name, fallbackCtx, []⟩, 1)

/-- External dependencies of the catalog sync. `schemaOf` models
`db.get_table_context_string` (pure catalog metadata of the relational
store); `sampleOf` models `db.get_sample_data` and only feeds the LLM
prompt. -/
structure CatalogOracle where
  chatO : String → Except String String
  embedO : String → Except String Vec
  schemaOf : String → String
  sampleOf : String → List String

/-- `add_table_to_catalog` (the single-table sync behind `sync_table`):
skip when an entry exists and `force_update` is false; otherwise generate a
description (with fallback), embed the searchable text
`f"{table_name} {description} {business_context}"`, and upsert. The commit
happens only at the end, and the except-clause rolls back and re-raises, so
a failed call leaves the catalog unchanged. Returns
(new catalog or error, chat-model calls, embedding calls). -/
def add_table_to_catalog (o : CatalogOracle) (st : List CatalogEntry)
    (table_name : String) (force_update : Bool) :
    Except String (List CatalogEntry) × ℕ × ℕ :=
  let exists0 := st.any (fun e => e.table_name == table_name)
  if exists0 && !force_update then (.ok st, 0, 0)
  else
    let schema := o.schemaOf table_name
    let gd := generate_table_description o.chatO table_name
    let descs := gd.1
    let searchable :=
      table_name ++ spaceS ++ descs.description ++ spaceS ++ descs.business_context
    match o.embedO searchable with
    | .error e => (.error e, gd.2, 1)
    | .ok emb =>
      let entry : CatalogEntry :=
        ⟨table_name, schema, descs.description, descs.business_context,
          descs.sample_questions, emb⟩
      if exists0 then
        (.ok (st.map (fun e => if e.table_name == table_name then entry else e)),
          gd.2, 1)
      else (.ok (st ++ [entry]), gd.2, 1)

/-- Number of catalog entries carrying a given table name. -/
def countT (st : List CatalogEntry) (table_name : String) : ℕ :=
  (st.filter (fun e => e.table_name == table_name)).length

end MetadataCatalogManager

/- ------------------------------------------------------------------ -/
/- DatabaseManager / SQLAgent                                         -/
/- (src/backend/database.py 178-233, src/backend/sql_agent.py)        -/
/- ------------------------------------------------------------------ -/

/-- The relational store as seen by the agent. `explainOk` is whether
`EXPLAIN <q>` succeeds on the current state (EXPLAIN only plans, it
executes nothing, so it cannot change data); `exec` runs the query and
either commits (returning rows and the possibly-changed state) or raises
after rollback (state unchanged, per execute_query's except clause). -/
structure SQLOracle (σ : Type) where
  explainOk : σ → String → Bool
  explainErr : σ → String → String
  exec : σ → String → Except String (List Row × σ)

namespace DatabaseManager

/-- `validate_query`: EXPLAIN-based non-executing validation. Returns
(is_valid, error_message) and the store state, which is unchanged in both
branches: success commits a plan-only statement, failure rolls back. -/
def validate_query {σ : Type} (o : SQLOracle σ) (st : σ) (query : String) :
    (Bool × Option String) × σ :=
  if o.explainOk st query then ((true, none), st)
  else ((false, some (o.explainErr st query)), st)

end DatabaseManager

/-- The dict produced by `validate_and_execute` (and by the direct
execution path when validation is disabled). `row_count := none` models an
absent key. -/
structure ExecOutcome where
  valid : Bool
  error : Option String
  results : Option (List Row)
  row_count : Option ℕ
deriving DecidableEq, Repr

/-- The JSON object produced by `generate_sql` (after fence-stripping /
fallback extraction): it always carries an `sql` string; `explanation` and
`tables_used` are read with `.get`. -/
structure GenResult where
  sql : String
  explanation : Option String
  tables_used : List String
deriving DecidableEq, Repr

/-- The dict returned by `SQLAgent.query`. `none` in `results` /
`row_count` / `sql` / `explanation` models an absent key or a None value
(the early error returns carry neither key). -/
structure SQLResult where
  success : Bool
  query : Option String
  sql : Option String
  explanation : Option String
  tables_used : List String
  results : Option (List Row)
  row_count : Option ℕ
  error : Option String
deriving DecidableEq, Repr

/-- External dependencies of the SQL agent. `discover` models
`metadata.discover_relevant_tables` (whose embedding failures re-raise and
are NOT caught by `SQLAgent.query`); `genSQL` models `generate_sql`
(caught). Both are keyed by the routed query text, which arrives as
`params.get("query")` and may be absent. -/
structure SQLAgentOracle (σ : Type) where
  discover : Option String → Except String (List DiscoveredTable)
  genSQL : Option String → Except String GenResult
  db : SQLOracle σ

/-- RAG configuration (src/config.py RAGConfig). -/
structure RAGConfig where
  enable_vector_search : Bool
  enable_sql_search : Bool
  max_context_tables : ℕ
  max_vector_results : ℕ
  enable_query_validation : Bool
  enable_auto_metadata_sync : Bool
deriving DecidableEq, Repr

namespace SQLAgent

/-- `validate_and_execute` (sql_agent.py 183-233): validate first; an
invalid query returns the validation error with no results and never
reaches `execute`. The third component is the list of queries actually
passed to `db.execute_query`. -/
def validate_and_execute {σ : Type} (o : SQLOracle σ) (st : σ)
    (sql_query : String) (validate_only : Bool) :
    ExecOutcome × σ × List String :=
  let v := DatabaseManager.validate_query o st sql_query
  if v.1.1 = false then (⟨false, v.1.2, none, none⟩, v.2, [])
  else if validate_only then (⟨true, none, none, none⟩, v.2, [])
  else
    match o.exec v.2 sql_query with
    | .ok (rows, st2) => (⟨true, none, some rows, some rows.length⟩, st2, [sql_query])
    | .error e => (⟨false, some e, none, none⟩, v.2, [sql_query])

/-- `SQLAgent.query` (sql_agent.py 235-300): discover tables (discovery
failures propagate uncaught), report `errNoTables` when none found,
generate SQL (failures caught into an error result), then validate+execute
or execute directly depending on `enable_query_validation`. The final dict
always carries `row_count = execution_result.get("row_count", 0)`. -/
def query {σ : Type} (o : SQLAgentOracle σ) (cfg : RAGConfig) (st : σ)
    (user_query : Option String) :
    Except String (SQLResult × σ × List String) :=
  match o.discover user_query with
  | .error e => .error e
  | .ok tables =>
    if tables.isEmpty then
      .ok (⟨false, user_query, none, none, [], none, none, some errNoTables⟩, st, [])
    else
      match o.genSQL user_query with
      | .error e =>
        .ok (⟨false, user_query, none, none, [], none, none,
          some (errGenPre ++ e)⟩, st, [])
      | .ok g =>
        let er :=
          if cfg.enable_query_validation then validate_and_execute o.db st g.sql false
          else
            match o.db.exec st g.sql with
            | .ok (rows, st2) =>
              ((⟨true, none, some rows, some rows.length⟩ : ExecOutcome), st2, [g.sql])
            | .error e => ((⟨false, some e, none, none⟩ : ExecOutcome), st, [g.sql])
        .ok (⟨er.1.valid, user_query, some g.sql, g.explanation, g.tables_used,
          er.1.results, some (er.1.row_count.getD 0), er.1.error⟩, er.2.1, er.2.2)

end SQLAgent

/- ------------------------------------------------------------------ -/
/- VectorSearchAgent (src/vector_agent.py)                            -/
/- ------------------------------------------------------------------ -/

/-- One formatted document of a vector search result. -/
structure VectorDoc where
  content : String
  metadata : Option String
  similarity : ℚ
deriving DecidableEq, Repr

/-- The dict returned by `VectorSearchAgent.query`: the failure branch
carries an empty `documents` list and no `count` key. -/
structure VectorResult where
  success : Bool
  query : Option String
  documents : List VectorDoc
  count : Option ℕ
  error : Option String
deriving DecidableEq, Repr

namespace VectorSearchAgent

/-- `VectorSearchAgent.query` (vector_agent.py 187-224): the whole
embed-and-search pipeline (`self.search`) runs inside one try; any failure
is caught into a `success: false` result with `documents: []`. -/
def query (searchO : Option String → Except String (List VectorDoc))
    (user_query : Option String) : VectorResult :=
  match searchO user_query with
  | .ok docs => ⟨true, user_query, docs, some docs.length, none⟩
  | .error e => ⟨false, user_query, [], none, some e⟩

end VectorSearchAgent

/- ------------------------------------------------------------------ -/
/- OrchestratorAgent (src/orchestrator.py)                            -/
/- ------------------------------------------------------------------ -/

/-- One routing decision: tool name, the extracted `query` argument
(`parameters.get("query")`), and the correlation token. -/
structure RoutingDecision where
  agent : String
  queryParam : Option String
  tool_call_id : String
deriving DecidableEq, Repr

/-- Outcome of the router LLM call: a non-empty tool-call list, a plain
content reply (no tools), or a raised exception. -/
inductive RouteOutcome where
  | toolCalls (d : RoutingDecision) (ds : List RoutingDecision)
  | noTools (content : Option String)
  | exn (e : String)
deriving DecidableEq, Repr

/-- The dict returned by `route_query`. `message_present` records whether
the `message` key exists at all (it does only in the no-tool-calls branch,
where its value may be None), because `query` later reads it with
`.get("message", "Unable to process query")`. -/
structure RouteResult where
  success : Bool
  routing_decisions : List RoutingDecision
  requires_both : Bool
  error : Option String
  message : Option String
  message_present : Bool
deriving DecidableEq, Repr

/-- The `results` dict of `execute_agent_calls`. -/
structure AgentResults where
  sql_results : Option SQLResult
  vector_results : Option VectorResult
deriving DecidableEq, Repr

/-- The structured-results section of the synthesis context (query text,
referenced tables, raw rows), present only when the SQL result exists and
succeeded. -/
structure SQLContextPart where
  sql : Option String
  tables_used : List String
  results : Option (List Row)
deriving DecidableEq, Repr

/-- One document line of the synthesis context (similarity and content). -/
structure DocContextPart where
  similarity : ℚ
  content : String
deriving DecidableEq, Repr

/-- The context block `synthesize_response` builds before calling the
model, as structured data instead of the concatenated string. A `none`
field means that section contributes nothing. -/
structure Context where
  sqlPart : Option SQLContextPart
  docParts : Option (List DocContextPart)
deriving DecidableEq, Repr

/-- The answer value: the model's synthesized text, the error-note-plus-raw
-context fallback when the synthesis call fails, or the plain routing
fallback message of the top-level failure branch (possibly None). -/
inductive Answer where
  | text (s : String)
  | errorWithContext (ctx : Context)
  | plain (s : Option String)
deriving DecidableEq, Repr

/-- The dict returned by `OrchestratorAgent.query`. -/
structure QueryOutput where
  success : Bool
  query : String
  error : Option String
  answer : Answer
  routing : Option (List RoutingDecision)
  sql_results : Option SQLResult
  vector_results : Option VectorResult
deriving DecidableEq, Repr

/-- External dependencies of the orchestrator: the router LLM reply, the
two agents' dependencies, and the synthesis LLM call (keyed by the original
question and the built context). -/
structure OrchOracle (σ : Type) where
  route : RouteOutcome
  sqlA : SQLAgentOracle σ
  vecSearch : Option String → Except String (List VectorDoc)
  synth : String → Context → Except String String

namespace OrchestratorAgent

/-- `route_query` (orchestrator.py 103-164): tool calls yield success with
one decision per call; no tool calls or an exception yield failure (the
no-tools branch carries the model's free-text content as `message`). -/
def route_query (route : RouteOutcome) : RouteResult :=
  match route with
  | .toolCalls d ds =>
    ⟨true, d :: ds, decide (1 < (d :: ds).length), none, none, false⟩
  | .noTools c => ⟨false, [], false, some errRoute, c, true⟩
  | .exn e => ⟨false, [], false, some e, none, false⟩

/-- `execute_agent_calls` (orchestrator.py 166-194): loop over the
decisions; dispatch to an agent only when its capability flag is enabled;
a later decision for the same agent overwrites the earlier result. An
exception raised by an agent (only the SQL agent can raise, via uncaught
discovery failures) propagates and aborts the loop. -/
def execute_agent_calls {σ : Type} (o : OrchOracle σ) (cfg : RAGConfig)
    (st : σ) (ds : List RoutingDecision) : Except String (AgentResults × σ) :=
  ds.foldlM
    (fun acc d =>
      if d.agent == agentSqlName && cfg.enable_sql_search then
        match SQLAgent.query o.sqlA cfg acc.2 d.queryParam with
        | .error e => .error e
        | .ok (r, st2, _) => .ok ({ acc.1 with sql_results := some r }, st2)
      else if d.agent == agentVecName && cfg.enable_vector_search then
        .ok ({ acc.1 with
          vector_results := some (VectorSearchAgent.query o.vecSearch d.queryParam) },
          acc.2)
      else .ok acc)
    (⟨none, none⟩, st)

/-- The context built by `synthesize_response` (orchestrator.py 211-228):
each section is included only when its result dict is present and carries
a truthy `success`. -/
def buildContext (ar : AgentResults) : Context :=
  { sqlPart :=
      match ar.sql_results with
      | some r => if r.success then some ⟨r.sql, r.tables_used, r.results⟩ else none
      | none => none
    docParts :=
      match ar.vector_results with
      | some v =>
        if v.success then some (v.documents.map (fun d => ⟨d.similarity, d.content⟩))
        else none
      | none => none }

/-- True when neither agent produced usable evidence: each path's result is
absent (skipped) or carries `success: false`. -/
def noUsableEvidence (ar : AgentResults) : Bool :=
  (ar.sql_results.all (fun r => !r.success)) &&
  (ar.vector_results.all (fun v => !v.success))

/-- `synthesize_response` (orchestrator.py 196-259): build the context,
then UNCONDITIONALLY call the synthesis model once; if that call fails,
return the raw context prefixed with an error note. Returns the answer and
the number of synthesis-model calls made. -/
def synthesize_response {σ : Type} (o : OrchOracle σ) (user_query : String)
    (ar : AgentResults) : Answer × ℕ :=
  let ctx := buildContext ar
  match o.synth user_query ctx with
  | .ok s => (Answer.text s, 1)
  | .error _ => (Answer.errorWithContext ctx, 1)

/-- `OrchestratorAgent.query` (orchestrator.py 261-298): route; on routing
failure return `success: false` with the fallback answer
(`routing_result.get("message", "Unable to process query")`); otherwise
execute the agent calls (exceptions propagate), synthesize, and return
`success: true` unconditionally. -/
def query {σ : Type} (o : OrchOracle σ) (cfg : RAGConfig) (st : σ)
    (user_query : String) : Except String QueryOutput :=
  let rr := route_query o.route
  if rr.success = false then
    .ok ⟨false, user_query, rr.error,
      Answer.plain (if rr.message_present then rr.message else some defaultAnswer),
      none, none, none⟩
  else
    match execute_agent_calls o cfg st rr.routing_decisions with
    | .error e => .error e
    | .ok (ar, _) =>
      .ok ⟨true, user_query, none, (synthesize_response o user_query ar).1,
        some rr.routing_decisions, ar.sql_results, ar.vector_results⟩

end OrchestratorAgent

/- ------------------------------------------------------------------ -/
/- chunk_text (src/backend/tasks.py lines 315-362)                    -/
/- ------------------------------------------------------------------ -/

def cSpace : Char := ' '

def cNl : Char :=
  Char.ofNat 10

def cTab : Char :=
  Char.ofNat 9

def cCr : Char :=
  Char.ofNat 13

def cDot : Char := '.'

def cBang : Char := '!'

def cQm : Char := '?'

/-- Whitespace characters relevant to `str.strip()` on the texts involved
(Python strips all Unicode whitespace; the source texts only contain
these). -/
def isWS (c : Char) : Bool :=
  c == cSpace || c == cNl || c == cTab || c == cCr

/-- Python slice/`rfind` index normalization, lower index: a negative index
counts from the end and clamps to 0; a non-negative index clamps to the
length. -/
def pyNormLo (n : ℕ) (i : ℤ) : ℕ :=
  if i < 0 then ((n : ℤ) + i).toNat else min i.toNat n

/-- Python slice/`rfind` index normalization, upper index. -/
def pyNormHi (n : ℕ) (j : ℤ) : ℕ :=
  if j < 0 then ((n : ℤ) + j).toNat else min j.toNat n

/-- Does `sub` occur in `t` starting at position `k`? -/
def matchAt (t sub : List Char) (k : ℕ) : Bool :=
  (t.drop k).take sub.length == sub

/-- Search downward from `k` for the greatest position `m` with `lo ≤ m`
at which `sub` matches. -/
def rfindDownAux (t sub : List Char) (lo : ℕ) : ℕ → Option ℕ
  | 0 => if lo == 0 && matchAt t sub 0 then some 0 else none
  | k + 1 =>
    if lo ≤ k + 1 && matchAt t sub (k + 1) then some (k + 1)
    else rfindDownAux t sub lo k

/-- `str.rfind(sub, i, j)` as an optional position: the greatest `m` with
`norm i ≤ m` and `m + |sub| ≤ norm j` at which `sub` matches. -/
def pyRfindNat (t sub : List Char) (i j : ℤ) : Option ℕ :=
  if sub.length ≤ pyNormHi t.length j then
    rfindDownAux t sub (pyNormLo t.length i) (pyNormHi t.length j - sub.length)
  else none

/-- `str.rfind(sub, i, j)`: −1 when not found. -/
def pyRfind (t sub : List Char) (i j : ℤ) : ℤ :=
  match pyRfindNat t sub i j with
  | some k => (k : ℤ)
  | none => -1

/-- Python slice `t[i:j]` with normalized bounds. -/
def pySlice (t : List Char) (i j : ℤ) : List Char :=
  (t.take (pyNormHi t.length j)).drop (pyNormLo t.length i)

/-- `str.strip()`. -/
def pyStrip (t : List Char) : List Char :=
  ((t.dropWhile isWS).reverse.dropWhile isWS).reverse

/-- One chunk dict: stripped text and the raw start/end positions (the
Python dict's `start` and `end` keys; `end` is a Lean keyword, hence
`stop`). -/
structure Chunk where
  text : List Char
  start : ℤ
  stop : ℤ
deriving DecidableEq, Repr

/-- The boundary delimiters tried in order: `'. '`, `'! '`, `'? '`,
`'\n\n'`, `'\n'`, `' '`. -/
def delimList : List (List Char) :=
  [[cDot, cSpace], [cBang, cSpace], [cQm, cSpace], [cNl, cNl], [cNl], [cSpace]]

/-- The chunk end position after the boundary backtracking: the tentative
end `start + chunk_size`; when that is still inside the text, the first
delimiter (in order) found by `text.rfind(delimiter, start, end)` moves
the end to just past that boundary. -/
def chunkEnd (t : List Char) (cs start : ℤ) : ℤ :=
  let n : ℤ := t.length
  let end0 := start + cs
  if end0 < n then
    match delimList.find? (fun d => pyRfind t d start end0 != -1) with
    | some d => pyRfind t d start end0 + d.length
    | none => end0
  else end0

/-- One iteration of the `while start < text_length` loop of `chunk_text`:
compute the (possibly backtracked) end, strip the slice, append it if
non-empty, move `start` to `end - chunk_overlap`, and apply the progress
guard `if (start <= chunks[-1]['start']) if chunks else False: start = end`
(which does nothing when the chunk list is empty). -/
def chunkStep (t : List Char) (cs co : ℤ) (st : ℤ × List Chunk) :
    ℤ × List Chunk :=
  let start := st.1
  let chunks := st.2
  let endI := chunkEnd t cs start
  let ct := pyStrip (pySlice t start endI)
  let chunks2 := if ct.isEmpty then chunks else chunks ++ [⟨ct, start, endI⟩]
  let start2 := endI - co
  let start3 :=
    match chunks2.getLast? with
    | some c => if start2 ≤ c.start then endI else start2
    | none => start2
  (start3, chunks2)

/-- The loop, fuel-bounded. `none` means the fuel ran out. -/
def chunkLoop (t : List Char) (cs co : ℤ) : ℕ → ℤ × List Chunk → Option (List Chunk)
  | 0, _ => none
  | fuel + 1, st =>
    if st.1 < (t.length : ℤ) then chunkLoop t cs co fuel (chunkStep t cs co st)
    else some st.2

/-- `chunk_text` with fuel `|text| + 1`: `start` begins at 0 and the loop
runs while `start < |text|`, so if `start` strictly advanced on every
iteration the loop would finish within `|text| + 1` iterations; a `none`
result therefore refutes per-iteration strict progress. -/
def chunk_text (t : List Char) (chunk_size chunk_overlap : ℤ) :
    Option (List Chunk) :=
  chunkLoop t chunk_size chunk_overlap (t.length + 1) ((0 : ℤ), [])

/- ------------------------------------------------------------------ -/
/- Concrete instances used by witnesses and counterexamples           -/
/- ------------------------------------------------------------------ -/

def exQuestion : String := "what is the refund policy"

def embedDownMsg : String := "embedding provider unavailable"

def chatDownMsg : String := "chat model unreachable"

def vecErrMsg : String := "vector search backend failure"

def execErrMsg : String := "runtime constraint violation"

def explainErrMsg : String := "syntax error in generated query"

def synthOutMsg : String := "synthesized answer"

def exTableNameA : String := "sales"

def exDescA : String := "Sales transactions"

def exCtxA : String := "Answers revenue questions"

def exColDefsA : String := "id integer, amount numeric"

def exTableNameB : String := "policy_notes"

def exDescB : String := "Support notes"

def exCtxB : String := "Support context"

def exColDefsB : String := "id integer, note text containing what is the refund policy"

def schemaA : String := "sales: id integer, amount numeric"

def genSqlA : String := "SELECT sum(amount) FROM sales"

def idA : String := "call_1"

def idB : String := "call_2"

def docContentA : String := "refunds are accepted within 30 days"

/-- A cosine-distance oracle that keeps every similarity at 0 (distance 1):
the vector tier's floor then rejects everything. -/
def distOne : Vec → Vec → ℚ := fun _ _ => 1

def embedFailO : String → Except String Vec := fun _ => Except.error embedDownMsg

def embedOkO : String → Except String Vec := fun _ => Except.ok [1]

def entryA : CatalogEntry := ⟨exTableNameA, exColDefsA, exDescA, exCtxA, [], [1]⟩

/-- An entry whose ONLY keyword match for `exQuestion` is inside its column
definitions. -/
def entryB : CatalogEntry := ⟨exTableNameB, exColDefsB, exDescB, exCtxB, [], [1]⟩

def exCatalog : List CatalogEntry := [entryA]

def exCatalogB : List CatalogEntry := [entryB]

def dtA : DiscoveredTable := ⟨exTableNameA, exDescA, exCtxA, exColDefsA, [], 1/2⟩

def genA : GenResult := ⟨genSqlA, none, [exTableNameA]⟩

def cfgAll : RAGConfig := ⟨true, true, 5, 3, true, true⟩

/-- A relational store on which EXPLAIN always rejects the query. -/
def dbFailValid : SQLOracle ℕ :=
  ⟨fun _ _ => false, fun _ _ => explainErrMsg, fun st _ => Except.ok ([], st)⟩

/-- A relational store on which EXPLAIN succeeds but execution raises. -/
def dbExecFails : SQLOracle ℕ :=
  ⟨fun _ _ => true, fun _ _ => emptyS, fun _ _ => Except.error execErrMsg⟩

def sqlOracleC5 : SQLAgentOracle ℕ :=
  ⟨fun _ => Except.ok [dtA], fun _ => Except.ok genA, dbFailValid⟩

def sqlOracleExecFails : SQLAgentOracle ℕ :=
  ⟨fun _ => Except.ok [dtA], fun _ => Except.ok genA, dbExecFails⟩

def decisionSql : RoutingDecision := ⟨agentSqlName, some exQuestion, idA⟩

def decisionVec : RoutingDecision := ⟨agentVecName, some exQuestion, idB⟩

def docA : VectorDoc := ⟨docContentA, none, 9/10⟩

/-- Orchestrator dependencies for a run where routing picks both tools, the
structured path fails at execution (caught) and the unstructured path also
fails (caught). -/
def orchBothFail : OrchOracle ℕ :=
  ⟨RouteOutcome.toolCalls decisionSql [decisionVec], sqlOracleExecFails,
    fun _ => Except.error vecErrMsg, fun _ _ => Except.ok synthOutMsg⟩

/-- Orchestrator dependencies for the partial-failure scenario: structured
path fails at execution (caught), unstructured path succeeds. -/
def orchPartial : OrchOracle ℕ :=
  ⟨RouteOutcome.toolCalls decisionSql [decisionVec], sqlOracleExecFails,
    fun _ => Except.ok [docA], fun _ _ => Except.ok synthOutMsg⟩

/-- The agent results `orchPartial` produces. -/
def arPartial : AgentResults :=
  ⟨some ⟨false, some exQuestion, some genSqlA, none, [exTableNameA], none,
      some 0, some execErrMsg⟩,
    some ⟨true, some exQuestion, [docA], some 1, none⟩⟩

def vecFailO : Option String → Except String (List VectorDoc) :=
  fun _ => Except.error vecErrMsg

/-- The SQL-agent result of `sqlOracleExecFails` on `exQuestion`: validation
passes, execution raises, the failure is caught into this dict. -/
def rC8 : SQLResult :=
  ⟨false, some exQuestion, some genSqlA, none, [exTableNameA], none, some 0,
    some execErrMsg⟩

def sqlFailedR : SQLResult :=
  ⟨false, some exQuestion, none, none, [], none, none, some errNoTables⟩

def vecFailedR : VectorResult := ⟨false, some exQuestion, [], none, some vecErrMsg⟩

def arBothFailed : AgentResults := ⟨some sqlFailedR, some vecFailedR⟩

/-- External dependencies for the catalog-sync examples: the chat model is
down, the embedding provider works. -/
def catOracleW : MetadataCatalogManager.CatalogOracle :=
  ⟨fun _ => Except.error chatDownMsg, fun _ => Except.ok [1],
    fun _ => schemaA, fun _ => []⟩

/-- The catalog after one successful sync of `sales` through `catOracleW`
(fallback description, embedding of the fallback searchable text). -/
def r1W : List CatalogEntry :=
  [⟨exTableNameA, schemaA, fallbackDescPre ++ exTableNameA, fallbackCtx, [], [1]⟩]

def cLetterA : Char := 'a'

/-- Two leading spaces then eight letters: with chunk_size 5 and overlap 2
the first iteration backtracks to the last space (index 1), strips to an
empty chunk, and resets `start` to 2 − 2 = 0 with the progress guard
disabled by the empty chunk list. -/
def t9 : List Char := [cSpace, cSpace] ++ List.replicate 8 cLetterA

/-- Three letters: a single iteration that appends one chunk. -/
def tA3 : List Char := List.replicate 3 cLetterA

/- ================================================================== -/
/- Theorems                                                           -/
/- ================================================================== -/

open MetadataCatalogManager

theorem length_insertLe {α : Type} (le : α → α → Bool) (a : α) (l : List α) :
    (insertLe le a l).length = l.length + 1 := by
  induction l with
  | nil => rfl
  | cons b bs ih =>
    simp only [insertLe]
    split
    · simp
    · simp [ih]

theorem length_sortLe {α : Type} (le : α → α → Bool) (l : List α) :
    (sortLe le l).length = l.length := by
  induction l with
  | nil => rfl
  | cons a as ih => simp [sortLe, length_insertLe, ih]

theorem vectorTier_length_le (dist : Vec → Vec → ℚ) (catalog : List CatalogEntry)
    (qe : Vec) (m : ℕ) : (vectorTier dist catalog qe m).length ≤ m := by
  simp only [vectorTier, List.length_map, List.length_take]
  exact min_le_left _ _

theorem keywordTier_length_le (catalog : List CatalogEntry) (q : String) (m : ℕ) :
    (keywordTier catalog q m).length ≤ m := by
  simp only [keywordTier, List.length_map, List.length_take]
  exact min_le_left _ _

theorem allTier_length_le (catalog : List CatalogEntry) (m : ℕ) :
    (allTier catalog m).length ≤ m := by
  simp only [allTier, List.length_map, List.length_take]
  exact min_le_left _ _

theorem vectorTier_distOne_nil (catalog : List CatalogEntry) (qe : Vec) (m : ℕ) :
    vectorTier distOne catalog qe m = [] := by
  have hfil : catalog.filter
      (fun e => decide (simFloor < 1 - distOne e.description_embedding qe)) = [] := by
    rw [List.filter_eq_nil_iff]
    intro e _
    simp only [distOne, simFloor, decide_eq_true_eq]
    norm_num
  simp [vectorTier, hfil, sortLe]

theorem allTier_ne_nil (catalog : List CatalogEntry) (m : ℕ)
    (hcat : catalog ≠ []) (hm : 0 < m) : allTier catalog m ≠ [] := by
  have hlen : 0 < (allTier catalog m).length := by
    simp only [allTier, List.length_map, List.length_take, lt_min_iff]
    exact ⟨hm, List.length_pos.mpr hcat⟩
  exact List.ne_nil_of_length_pos hlen

/-- Claim C3 (amended): once the question embedding is obtained,
`discover_relevant_tables` never raises — it degrades through the three
tiers and always returns one of them. (The claim as frozen is refuted by
`claim_C3_counterexample`: the embedding call itself sits outside any
try/except and its failure propagates to the caller.) -/
theorem claim_C3_amended (dist : Vec → Vec → ℚ)
    (embedO : String → Except String Vec) (catalog : List CatalogEntry)
    (q : String) (m : ℕ) (qe : Vec) (h : embedO q = Except.ok qe) :
    ∃ r, discover_relevant_tables dist embedO catalog q m = Except.ok r ∧
      (r = vectorTier dist catalog qe m ∨ r = keywordTier catalog q m ∨
        r = allTier catalog m) := by
  unfold discover_relevant_tables
  rw [h]
  by_cases h1 : (vectorTier dist catalog qe m).isEmpty
  · by_cases h2 : (keywordTier catalog q m).isEmpty
    · exact ⟨_, by simp [h1, h2], Or.inr (Or.inr rfl)⟩
    · exact ⟨_, by simp [h1, h2], Or.inr (Or.inl rfl)⟩
  · exact ⟨_, by simp [h1], Or.inl rfl⟩

/-- Claim C3 counterexample: with a failing embedding provider,
`discover_relevant_tables` raises (returns the provider's error) instead of
degrading through the fallback tiers, even over a non-empty catalog. -/
theorem claim_C3_counterexample :
    discover_relevant_tables distOne embedFailO exCatalog exQuestion 5 =
      Except.error embedDownMsg := rfl

/-- Claim C3 witness: the amended theorem applied at a concrete input. -/
theorem claim_C3_witness :
    embedOkO exQuestion = Except.ok [1] ∧
    (∃ r, discover_relevant_tables distOne embedOkO exCatalog exQuestion 5 =
        Except.ok r ∧
      (r = vectorTier distOne exCatalog [1] 5 ∨
        r = keywordTier exCatalog exQuestion 5 ∨ r = allTier exCatalog 5)) :=
  ⟨rfl, claim_C3_amended distOne embedOkO exCatalog exQuestion 5 [1] rfl⟩

/-- Claim C4: over a non-empty catalog (and a positive `max_tables`, with
the question embedding succeeding), discovery returns a non-empty list of
at most `max_tables` entries, and the tiers fire in strict order — the
keyword tier only when the vector tier is empty, the arbitrary-entries tier
only when both earlier tiers are empty. -/
theorem claim_C4 (dist : Vec → Vec → ℚ) (embedO : String → Except String Vec)
    (catalog : List CatalogEntry) (q : String) (m : ℕ) (qe : Vec)
    (h : embedO q = Except.ok qe) (hcat : catalog ≠ []) (hm : 0 < m) :
    ∃ r, discover_relevant_tables dist embedO catalog q m = Except.ok r ∧
      r ≠ [] ∧ r.length ≤ m ∧
      (vectorTier dist catalog qe m ≠ [] → r = vectorTier dist catalog qe m) ∧
      (vectorTier dist catalog qe m = [] → keywordTier catalog q m ≠ [] →
        r = keywordTier catalog q m) ∧
      (vectorTier dist catalog qe m = [] → keywordTier catalog q m = [] →
        r = allTier catalog m) := by
  unfold discover_relevant_tables
  rw [h]
  by_cases h1 : (vectorTier dist catalog qe m).isEmpty
  · have h1e : vectorTier dist catalog qe m = [] := List.isEmpty_iff.mp h1
    by_cases h2 : (keywordTier catalog q m).isEmpty
    · have h2e : keywordTier catalog q m = [] := List.isEmpty_iff.mp h2
      refine ⟨allTier catalog m, by simp [h1, h2], ?_, allTier_length_le _ _,
        ?_, ?_, ?_⟩
      · exact allTier_ne_nil catalog m hcat hm
      · intro hne; exact absurd h1e hne
      · intro _ hne; exact absurd h2e hne
      · intro _ _; rfl
    · have h2e : keywordTier catalog q m ≠ [] := fun hh => h2 (by simp [hh])
      refine ⟨keywordTier catalog q m, by simp [h1, h2], h2e,
        keywordTier_length_le _ _ _, ?_, ?_, ?_⟩
      · intro hne; exact absurd h1e hne
      · intro _ _; rfl
      · intro _ hnil; exact absurd hnil h2e
  · have h1e : vectorTier dist catalog qe m ≠ [] := fun hh => h1 (by simp [hh])
    refine ⟨vectorTier dist catalog qe m, by simp [h1], h1e,
      vectorTier_length_le _ _ _ _, ?_, ?_, ?_⟩
    · intro _; rfl
    · intro hnil _; exact absurd hnil h1e
    · intro hnil _; exact absurd hnil h1e

/-- Claim C4 witness: the theorem applied at a concrete catalog and
question. -/
theorem claim_C4_witness :
    embedOkO exQuestion = Except.ok [1] ∧ exCatalog ≠ [] ∧ 0 < 5 ∧
    (∃ r, discover_relevant_tables distOne embedOkO exCatalog exQuestion 5 =
        Except.ok r ∧ r ≠ [] ∧ r.length ≤ 5 ∧
      (vectorTier distOne exCatalog [1] 5 ≠ [] →
        r = vectorTier distOne exCatalog [1] 5) ∧
      (vectorTier distOne exCatalog [1] 5 = [] →
        keywordTier exCatalog exQuestion 5 ≠ [] →
        r = keywordTier exCatalog exQuestion 5) ∧
      (vectorTier distOne exCatalog [1] 5 = [] →
        keywordTier exCatalog exQuestion 5 = [] → r = allTier exCatalog 5)) :=
  ⟨rfl, by decide, by decide,
    claim_C4 distOne embedOkO exCatalog exQuestion 5 [1] rfl (by decide)
      (by decide)⟩

/-- Claim C10: when discovery answers from a fallback tier, every returned
similarity is a synthetic constant — 0.5 from the keyword tier, 0.3 from
the arbitrary-entries tier — and the keyword tier also matches the whole
lowercased question against the column definitions: an entry whose column
definitions contain the question is returned by it (whenever the catalog
fits within `max_tables`). -/
theorem claim_C10 (dist : Vec → Vec → ℚ) (embedO : String → Except String Vec)
    (catalog : List CatalogEntry) (q : String) (m : ℕ) (qe : Vec)
    (h : embedO q = Except.ok qe)
    (hv : vectorTier dist catalog qe m = []) :
    ∃ r, discover_relevant_tables dist embedO catalog q m = Except.ok r ∧
      (∀ d ∈ r, d.similarity =
        if (catalog.filter (keywordPred q)).isEmpty then allSim else keywordSim) ∧
      (∀ e ∈ catalog, containsLower e.column_definitions q = true →
        catalog.length ≤ m →
        ∃ d ∈ r, d.table_name = e.table_name ∧ d.similarity = keywordSim) := by
  have hv' : (vectorTier dist catalog qe m).isEmpty := by simp [hv]
  by_cases hf : (catalog.filter (keywordPred q)).isEmpty
  · have hfe : catalog.filter (keywordPred q) = [] := List.isEmpty_iff.mp hf
    have hk : keywordTier catalog q m = [] := by simp [keywordTier, hfe]
    refine ⟨allTier catalog m, ?_, ?_, ?_⟩
    · unfold discover_relevant_tables
      rw [h]
      simp [hv', hk]
    · intro d hd
      simp only [hf, if_true]
      simp only [allTier, List.mem_map] at hd
      obtain ⟨e, _, rfl⟩ := hd
      rfl
    · intro e he hcol _
      have : keywordPred q e = true := by
        simp [keywordPred, hcol]
      have : e ∈ catalog.filter (keywordPred q) := List.mem_filter.mpr ⟨he, this⟩
      rw [hfe] at this
      exact absurd this (List.not_mem_nil e)
  · have hfe : catalog.filter (keywordPred q) ≠ [] :=
      fun hh => hf (by simp [hh])
    by_cases hk : (keywordTier catalog q m).isEmpty
    · have hke : (catalog.filter (keywordPred q)).take m = [] := by
        have := List.isEmpty_iff.mp hk
        simp only [keywordTier, List.map_eq_nil_iff] at this
        exact this
      have hm0 : m = 0 := by
        rcases List.take_eq_nil_iff.mp hke with hm | hl
        · exact hm
        · exact absurd hl hfe
      refine ⟨allTier catalog m, ?_, ?_, ?_⟩
      · unfold discover_relevant_tables
        rw [h]
        simp [hv', hk]
      · intro d hd
        subst hm0
        simp [allTier] at hd
      · intro e he _ hlen
        subst hm0
        have : catalog = [] := List.eq_nil_of_length_eq_zero (Nat.le_zero.mp hlen)
        subst this
        exact absurd he (List.not_mem_nil e)
    · refine ⟨keywordTier catalog q m, ?_, ?_, ?_⟩
      · unfold discover_relevant_tables
        rw [h]
        simp [hv', hk]
      · intro d hd
        simp only [hf, if_false]
        simp only [keywordTier, List.mem_map] at hd
        obtain ⟨e, _, rfl⟩ := hd
        rfl
      · intro e he hcol hlen
        have hpred : keywordPred q e = true := by
          simp [keywordPred, hcol]
        have hmem : e ∈ catalog.filter (keywordPred q) :=
          List.mem_filter.mpr ⟨he, hpred⟩
        have htake : (catalog.filter (keywordPred q)).take m =
            catalog.filter (keywordPred q) :=
          List.take_of_length_le (le_trans (List.length_filter_le _ _) hlen)
        refine ⟨⟨e.table_name, e.table_description, e.business_context,
          e.column_definitions, e.sample_queries, keywordSim⟩, ?_, rfl, rfl⟩
        simp only [keywordTier, List.mem_map, htake]
        exact ⟨e, hmem, rfl⟩

/-- Claim C10 witness: a catalog entry matched only through its column
definitions, returned with the synthetic similarity 0.5. -/
theorem claim_C10_witness :
    embedOkO exQuestion = Except.ok [1] ∧
    vectorTier distOne exCatalogB [1] 5 = [] ∧
    (∃ r, discover_relevant_tables distOne embedOkO exCatalogB exQuestion 5 =
        Except.ok r ∧
      (∀ d ∈ r, d.similarity =
        if (exCatalogB.filter (keywordPred exQuestion)).isEmpty then allSim
        else keywordSim) ∧
      (∀ e ∈ exCatalogB, containsLower e.column_definitions exQuestion = true →
        exCatalogB.length ≤ 5 →
        ∃ d ∈ r, d.table_name = e.table_name ∧ d.similarity = keywordSim)) :=
  ⟨rfl, vectorTier_distOne_nil exCatalogB [1] 5,
    claim_C10 distOne embedOkO exCatalogB exQuestion 5 [1] rfl
      (vectorTier_distOne_nil exCatalogB [1] 5)⟩

theorem countT_eq_zero (st : List CatalogEntry) (T : String)
    (hex0 : st.any (fun e => e.table_name == T) = false) : countT st T = 0 := by
  have : st.filter (fun e => e.table_name == T) = [] := by
    rw [List.filter_eq_nil_iff]
    intro e he
    have := List.any_eq_false.mp hex0 e he
    simpa using this
  simp [countT, this]

theorem countT_append_self (st : List CatalogEntry) (T : String)
    (entry : CatalogEntry) (hname : entry.table_name = T) :
    countT (st ++ [entry]) T = countT st T + 1 := by
  simp [countT, List.filter_append, hname]

/-- Claim C6: a second single-table sync with `force=false` is a no-op: it
returns at the existence check with zero chat-model calls and zero
embedding calls, and the catalog keeps exactly one entry for the table. -/
theorem claim_C6 (o : CatalogOracle) (st : List CatalogEntry) (T : String)
    (r1 : List CatalogEntry) (c1 e1 : ℕ) (hcount : countT st T ≤ 1)
    (h1 : add_table_to_catalog o st T false = (Except.ok r1, c1, e1)) :
    countT r1 T = 1 ∧
    add_table_to_catalog o r1 T false = (Except.ok r1, 0, 0) := by
  by_cases hex : st.any (fun e => e.table_name == T) = true
  · have hskip : add_table_to_catalog o st T false = (Except.ok st, 0, 0) := by
      simp [add_table_to_catalog, hex]
    rw [hskip] at h1
    simp only [Prod.mk.injEq, Except.ok.injEq] at h1
    obtain ⟨hst, -, -⟩ := h1
    subst hst
    have hpos : 0 < countT st T := by
      obtain ⟨e, he, hpe⟩ := List.any_eq_true.mp hex
      have hmem : e ∈ st.filter (fun x => x.table_name == T) :=
        List.mem_filter.mpr ⟨he, hpe⟩
      exact List.length_pos_of_mem hmem
    have hone : countT st T = 1 := le_antisymm hcount hpos
    exact ⟨hone, hskip⟩
  · have hex0 : st.any (fun e => e.table_name == T) = false := by
      revert hex
      cases st.any (fun e => e.table_name == T) <;> simp
    have hform : add_table_to_catalog o st T false =
        (match o.embedO (T ++ spaceS ++
            (generate_table_description o.chatO T).1.description ++ spaceS ++
            (generate_table_description o.chatO T).1.business_context) with
          | .error e => (.error e, (generate_table_description o.chatO T).2, 1)
          | .ok emb =>
            (.ok (st ++ [⟨T, o.schemaOf T,
                (generate_table_description o.chatO T).1.description,
                (generate_table_description o.chatO T).1.business_context,
                (generate_table_description o.chatO T).1.sample_questions, emb⟩]),
              (generate_table_description o.chatO T).2, 1)) := by
      simp [add_table_to_catalog, hex0]
    rw [hform] at h1
    cases hemb : o.embedO (T ++ spaceS ++
        (generate_table_description o.chatO T).1.description ++ spaceS ++
        (generate_table_description o.chatO T).1.business_context) with
    | error e =>
      rw [hemb] at h1
      exact absurd h1 (by simp)
    | ok emb =>
      rw [hemb] at h1
      simp only [Prod.mk.injEq, Except.ok.injEq] at h1
      obtain ⟨hr, -, -⟩ := h1
      have hcnt : countT r1 T = 1 := by
        rw [← hr, countT_append_self st T _ rfl, countT_eq_zero st T hex0]
      refine ⟨hcnt, ?_⟩
      have hexr : r1.any (fun e => e.table_name == T) = true := by
        rw [← hr]
        simp [List.any_append]
      simp [add_table_to_catalog, hexr]

/-- Claim C6 witness: syncing `sales` twice from an empty catalog with a
down chat model and a working embedding provider. -/
theorem claim_C6_witness :
    countT [] exTableNameA ≤ 1 ∧
    add_table_to_catalog catOracleW [] exTableNameA false =
      (Except.ok r1W, 1, 1) ∧
    (countT r1W exTableNameA = 1 ∧
      add_table_to_catalog catOracleW r1W exTableNameA false =
        (Except.ok r1W, 0, 0)) :=
  ⟨by decide, rfl,
    claim_C6 catOracleW [] exTableNameA r1W 1 1 (by decide) rfl⟩

/-- Claim C7: when the chat call for the table description fails, the sync
still creates the catalog entry, with the fallback description
`"Database table: <name>"` and an embedding computed from the fallback
searchable text; the sync fails (raises) only if the embedding provider
itself fails. -/
theorem claim_C7 (o : CatalogOracle) (st : List CatalogEntry) (T msg0 : String)
    (hchat : o.chatO T = Except.error msg0)
    (hex0 : st.any (fun x => x.table_name == T) = false) :
    (∀ emb, o.embedO (T ++ spaceS ++ (fallbackDescPre ++ T) ++ spaceS ++
        fallbackCtx) = Except.ok emb →
      add_table_to_catalog o st T false =
        (Except.ok (st ++ [⟨T, o.schemaOf T, fallbackDescPre ++ T, fallbackCtx,
          [], emb⟩]), 1, 1)) ∧
    (∀ msg, o.embedO (T ++ spaceS ++ (fallbackDescPre ++ T) ++ spaceS ++
        fallbackCtx) = Except.error msg →
      add_table_to_catalog o st T false = (Except.error msg, 1, 1)) := by
  constructor
  · intro emb hemb
    simp [add_table_to_catalog, hex0, generate_table_description, hchat, hemb]
  · intro msg hemb
    simp [add_table_to_catalog, hex0, generate_table_description, hchat, hemb]

/-- Claim C7 witness: the fallback entry created for `sales` when the chat
model is unreachable. -/
theorem claim_C7_witness :
    catOracleW.chatO exTableNameA = Except.error chatDownMsg ∧
    ([] : List CatalogEntry).any (fun x => x.table_name == exTableNameA) =
      false ∧
    catOracleW.embedO (exTableNameA ++ spaceS ++
      (fallbackDescPre ++ exTableNameA) ++ spaceS ++ fallbackCtx) =
      Except.ok [1] ∧
    add_table_to_catalog catOracleW [] exTableNameA false =
      (Except.ok r1W, 1, 1) :=
  ⟨rfl, rfl, rfl,
    (claim_C7 catOracleW [] exTableNameA chatDownMsg rfl rfl).1 [1] rfl⟩

theorem validate_and_execute_invalid {σ : Type} (o : SQLOracle σ) (st : σ)
    (q : String) (h : o.explainOk st q = false) :
    SQLAgent.validate_and_execute o st q false =
      (⟨false, some (o.explainErr st q), none, none⟩, st, []) := by
  simp [SQLAgent.validate_and_execute, DatabaseManager.validate_query, h]

theorem validate_and_execute_failed {σ : Type} (o : SQLOracle σ) (st : σ)
    (q : String) (vo : Bool)
    (h : (SQLAgent.validate_and_execute o st q vo).1.valid = false) :
    (SQLAgent.validate_and_execute o st q vo).1.results = none ∧
    (SQLAgent.validate_and_execute o st q vo).1.row_count = none := by
  by_cases hexp : o.explainOk st q = true
  · cases vo with
    | true =>
      simp [SQLAgent.validate_and_execute, DatabaseManager.validate_query,
        hexp] at h
    | false =>
      cases hexec : o.exec st q with
      | ok p =>
        simp [SQLAgent.validate_and_execute, DatabaseManager.validate_query,
          hexp, hexec] at h
      | error e =>
        simp [SQLAgent.validate_and_execute, DatabaseManager.validate_query,
          hexp, hexec]
  · have hexp0 : o.explainOk st q = false := by
      revert hexp
      cases o.explainOk st q <;> simp
    simp [SQLAgent.validate_and_execute, DatabaseManager.validate_query, hexp0]

/-- Claim C5: with validation enabled, a query rejected by the
non-executing EXPLAIN check never reaches `execute` (the executed-query log
is empty), the result carries the validation error and no rows, and the
store state is unchanged. -/
theorem claim_C5 {σ : Type} (o : SQLAgentOracle σ) (cfg : RAGConfig) (st : σ)
    (uq : Option String) (tables : List DiscoveredTable) (g : GenResult)
    (hval : cfg.enable_query_validation = true)
    (hdisc : o.discover uq = Except.ok tables) (hne : tables ≠ [])
    (hgen : o.genSQL uq = Except.ok g)
    (hexp : o.db.explainOk st g.sql = false) :
    SQLAgent.query o cfg st uq =
      Except.ok (⟨false, uq, some g.sql, g.explanation, g.tables_used, none,
        some 0, some (o.db.explainErr st g.sql)⟩, st, []) := by
  have hne0 : tables.isEmpty = false := by
    cases tables with
    | nil => exact absurd rfl hne
    | cons a l => rfl
  simp [SQLAgent.query, hdisc, hne0, hgen, hval,
    validate_and_execute_invalid o.db st g.sql hexp]

/-- Claim C5 witness: a store that rejects the generated query in EXPLAIN. -/
theorem claim_C5_witness :
    cfgAll.enable_query_validation = true ∧
    sqlOracleC5.discover (some exQuestion) = Except.ok [dtA] ∧
    [dtA] ≠ ([] : List DiscoveredTable) ∧
    sqlOracleC5.genSQL (some exQuestion) = Except.ok genA ∧
    sqlOracleC5.db.explainOk 0 genA.sql = false ∧
    SQLAgent.query sqlOracleC5 cfgAll 0 (some exQuestion) =
      Except.ok (⟨false, some exQuestion, some genA.sql, genA.explanation,
        genA.tables_used, none, some 0,
        some (sqlOracleC5.db.explainErr 0 genA.sql)⟩, 0, []) :=
  ⟨rfl, rfl, List.cons_ne_nil _ _, rfl, rfl,
    claim_C5 sqlOracleC5 cfgAll 0 (some exQuestion) [dtA] genA rfl rfl
      (List.cons_ne_nil _ _) rfl rfl⟩

/-- Claim C8: result rows are absent when success is false — an
unsuccessful SQL-agent result carries no rows (`results` absent/None and an
effective `row_count` of 0), and an unsuccessful vector-agent result
carries an empty `documents` list. -/
theorem claim_C8 {σ : Type} (o : SQLAgentOracle σ) (cfg : RAGConfig) (st : σ)
    (uq : Option String) (r : SQLResult) (st2 : σ) (log : List String)
    (searchO : Option String → Except String (List VectorDoc))
    (uq2 : Option String) :
    (SQLAgent.query o cfg st uq = Except.ok (r, st2, log) →
      r.success = false → r.results = none ∧ r.row_count.getD 0 = 0) ∧
    ((VectorSearchAgent.query searchO uq2).success = false →
      (VectorSearchAgent.query searchO uq2).documents = []) := by
  constructor
  · intro h hs
    unfold SQLAgent.query at h
    cases hdisc : o.discover uq with
    | error e =>
      rw [hdisc] at h
      exact absurd h (by simp)
    | ok tables =>
      rw [hdisc] at h
      dsimp only at h
      by_cases hemp : tables.isEmpty = true
      · rw [if_pos hemp] at h
        simp only [Except.ok.injEq, Prod.mk.injEq] at h
        obtain ⟨hr, -, -⟩ := h
        rw [← hr]
        exact ⟨rfl, rfl⟩
      · rw [if_neg hemp] at h
        cases hgen : o.genSQL uq with
        | error e =>
          rw [hgen] at h
          simp only [Except.ok.injEq, Prod.mk.injEq] at h
          obtain ⟨hr, -, -⟩ := h
          rw [← hr]
          exact ⟨rfl, rfl⟩
        | ok g =>
          rw [hgen] at h
          by_cases hval : cfg.enable_query_validation = true
          · simp only [hval, if_true, Except.ok.injEq, Prod.mk.injEq] at h
            obtain ⟨hr, -, -⟩ := h
            rw [← hr] at hs ⊢
            have hfail := validate_and_execute_failed o.db st g.sql false hs
            simp [hfail.1, hfail.2]
          · have hval0 : cfg.enable_query_validation = false := by
              revert hval
              cases cfg.enable_query_validation <;> simp
            simp only [hval0, Bool.false_eq_true, if_false] at h
            cases hexec : o.db.exec st g.sql with
            | ok p =>
              rw [hexec] at h
              simp only [Except.ok.injEq, Prod.mk.injEq] at h
              obtain ⟨hr, -, -⟩ := h
              rw [← hr] at hs
              simp at hs
            | error e =>
              rw [hexec] at h
              simp only [Except.ok.injEq, Prod.mk.injEq] at h
              obtain ⟨hr, -, -⟩ := h
              rw [← hr]
              exact ⟨rfl, rfl⟩
  · intro h
    cases hsr : searchO uq2 with
    | ok docs => simp [VectorSearchAgent.query, hsr] at h
    | error e => simp [VectorSearchAgent.query, hsr]

/-- Claim C8 witness: a failed structured execution and a failed vector
search, both carrying no rows/documents. -/
theorem claim_C8_witness :
    SQLAgent.query sqlOracleExecFails cfgAll 0 (some exQuestion) =
      Except.ok (rC8, 0, [genSqlA]) ∧
    rC8.success = false ∧
    (rC8.results = none ∧ rC8.row_count.getD 0 = 0) ∧
    (VectorSearchAgent.query vecFailO (some exQuestion)).success = false ∧
    (VectorSearchAgent.query vecFailO (some exQuestion)).documents = [] :=
  ⟨rfl, rfl,
    (claim_C8 sqlOracleExecFails cfgAll 0 (some exQuestion) rC8 0 [genSqlA]
      vecFailO (some exQuestion)).1 rfl rfl,
    rfl,
    (claim_C8 sqlOracleExecFails cfgAll 0 (some exQuestion) rC8 0 [genSqlA]
      vecFailO (some exQuestion)).2 rfl⟩

/-- Claim C1 counterexample: routing succeeds (both tools picked), both
retrieval paths fail with caught errors — yet `query` returns top-level
`success: true`, refuting “success: true exactly when at least one path
succeeds / top-level failure when both paths fail”. -/
theorem claim_C1_counterexample :
    (OrchestratorAgent.query orchBothFail cfgAll 0 exQuestion).toOption.map
      QueryOutput.success = some true ∧
    ((OrchestratorAgent.query orchBothFail cfgAll 0 exQuestion).toOption.bind
      QueryOutput.sql_results).map SQLResult.success = some false ∧
    ((OrchestratorAgent.query orchBothFail cfgAll 0 exQuestion).toOption.bind
      QueryOutput.vector_results).map VectorResult.success = some false :=
  ⟨rfl, rfl, rfl⟩

/-- Claim C1 (amended): `query` returns top-level `success: false` exactly
when routing fails (carrying no path results); when routing succeeds and
the agent calls return without an uncaught exception, it returns
`success: true` regardless of how many paths succeeded, passing each
path's own result through unchanged — so a caught failure in one path
leaves the other path's result intact, but `success: true` is returned
even when both paths fail, and an uncaught agent exception (e.g. an
embedding failure inside structured discovery) aborts the whole call. -/
theorem claim_C1_amended {σ : Type} (o : OrchOracle σ) (cfg : RAGConfig)
    (st : σ) (uq : String) :
    ((OrchestratorAgent.route_query o.route).success = false →
      ∃ out, OrchestratorAgent.query o cfg st uq = Except.ok out ∧
        out.success = false ∧ out.sql_results = none ∧
        out.vector_results = none) ∧
    (∀ ar st2, (OrchestratorAgent.route_query o.route).success = true →
      OrchestratorAgent.execute_agent_calls o cfg st
        (OrchestratorAgent.route_query o.route).routing_decisions =
        Except.ok (ar, st2) →
      ∃ out, OrchestratorAgent.query o cfg st uq = Except.ok out ∧
        out.success = true ∧ out.sql_results = ar.sql_results ∧
        out.vector_results = ar.vector_results) := by
  constructor
  · intro hfail
    exact ⟨⟨false, uq, (OrchestratorAgent.route_query o.route).error,
      Answer.plain (if (OrchestratorAgent.route_query o.route).message_present
        then (OrchestratorAgent.route_query o.route).message
        else some defaultAnswer), none, none, none⟩,
      by simp [OrchestratorAgent.query, hfail], rfl, rfl, rfl⟩
  · intro ar st2 hsucc hexec
    refine ⟨⟨true, uq, none, (OrchestratorAgent.synthesize_response o uq ar).1,
      some (OrchestratorAgent.route_query o.route).routing_decisions,
      ar.sql_results, ar.vector_results⟩, ?_, rfl, rfl, rfl⟩
    simp [OrchestratorAgent.query, hsucc, hexec]

/-- Claim C1 witness: the spec's partial-failure scenario — structured path
fails with a caught execution error, unstructured path succeeds, `query`
returns `success: true` with both per-path results preserved. -/
theorem claim_C1_witness :
    (OrchestratorAgent.route_query orchPartial.route).success = true ∧
    OrchestratorAgent.execute_agent_calls orchPartial cfgAll 0
      (OrchestratorAgent.route_query orchPartial.route).routing_decisions =
      Except.ok (arPartial, 0) ∧
    (∃ out, OrchestratorAgent.query orchPartial cfgAll 0 exQuestion =
        Except.ok out ∧ out.success = true ∧
        out.sql_results = arPartial.sql_results ∧
        out.vector_results = arPartial.vector_results) :=
  ⟨rfl, rfl,
    (claim_C1_amended orchPartial cfgAll 0 exQuestion).2 arPartial 0 rfl rfl⟩

/-- Claim C2 counterexample: with both agent results failed,
`synthesize_response` still calls the synthesis model (exactly one call)
and returns the model's output — there is no fixed "no relevant
information found" message and no model-call skip. -/
theorem claim_C2_counterexample :
    OrchestratorAgent.synthesize_response orchBothFail exQuestion
      arBothFailed = (Answer.text synthOutMsg, 1) ∧
    OrchestratorAgent.noUsableEvidence arBothFailed = true ∧ (1 : ℕ) ≠ 0 :=
  ⟨rfl, rfl, Nat.one_ne_zero⟩

/-- Claim C2 (amended): `synthesize_response` calls the text-generation
model exactly once on every input — also when no agent produced usable
evidence, in which case the context it passes to the model is empty (both
sections absent); the fixed no-information fallback claimed by the spec
does not exist in the Orchestrator. -/
theorem claim_C2_amended {σ : Type} (o : OrchOracle σ) (uq : String)
    (ar : AgentResults) :
    (OrchestratorAgent.synthesize_response o uq ar).2 = 1 ∧
    (OrchestratorAgent.noUsableEvidence ar = true →
      OrchestratorAgent.buildContext ar = ⟨none, none⟩) := by
  constructor
  · cases h : o.synth uq (OrchestratorAgent.buildContext ar) <;>
      simp [OrchestratorAgent.synthesize_response, h]
  · intro h
    obtain ⟨s, v⟩ := ar
    cases s <;> cases v <;>
      simp_all [OrchestratorAgent.noUsableEvidence,
        OrchestratorAgent.buildContext, Option.all]

/-- Claim C2 witness: the amended theorem at the concrete both-failed
input. -/
theorem claim_C2_witness :
    OrchestratorAgent.noUsableEvidence arBothFailed = true ∧
    (OrchestratorAgent.synthesize_response orchBothFail exQuestion
      arBothFailed).2 = 1 ∧
    OrchestratorAgent.buildContext arBothFailed = ⟨none, none⟩ :=
  ⟨rfl, (claim_C2_amended orchBothFail exQuestion arBothFailed).1,
    (claim_C2_amended orchBothFail exQuestion arBothFailed).2 rfl⟩

theorem rfindDownAux_ge (t sub : List Char) (lo : ℕ) :
    ∀ k m : ℕ, rfindDownAux t sub lo k = some m → lo ≤ m := by
  intro k
  induction k with
  | zero =>
    intro m h
    unfold rfindDownAux at h
    split at h
    · rename_i hc
      simp only [Bool.and_eq_true, beq_iff_eq] at hc
      have hm := Option.some.inj h
      omega
    · exact absurd h (by simp)
  | succ k ih =>
    intro m h
    unfold rfindDownAux at h
    split at h
    · rename_i hc
      simp only [Bool.and_eq_true, decide_eq_true_eq] at hc
      have hm := Option.some.inj h
      omega
    · exact ih m h

theorem pyRfind_cases (t sub : List Char) (i j : ℤ)
    (h : pyRfind t sub i j ≠ -1) :
    ∃ k : ℕ, pyRfind t sub i j = (k : ℤ) ∧ pyNormLo t.length i ≤ k := by
  unfold pyRfind at h ⊢
  cases hk : pyRfindNat t sub i j with
  | none =>
    rw [hk] at h
    simp at h
  | some k =>
    refine ⟨k, rfl, ?_⟩
    unfold pyRfindNat at hk
    split at hk
    · exact rfindDownAux_ge t sub _ _ k hk
    · exact absurd hk (by simp)

theorem delimList_length_pos (d : List Char) (hd : d ∈ delimList) :
    1 ≤ d.length := by
  simp only [delimList, List.mem_cons, List.not_mem_nil, or_false] at hd
  rcases hd with rfl | rfl | rfl | rfl | rfl | rfl <;> simp

theorem chunkEnd_gt (t : List Char) (cs start : ℤ) (hcs : 0 < cs) :
    start < chunkEnd t cs start := by
  unfold chunkEnd
  dsimp only
  by_cases hend : start + cs < (t.length : ℤ)
  · rw [if_pos hend]
    cases hf : delimList.find? (fun d => pyRfind t d start (start + cs) != -1) with
    | none =>
      show start < start + cs
      omega
    | some d =>
      show start < pyRfind t d start (start + cs) + d.length
      have hp := List.find?_some hf
      have hne : pyRfind t d start (start + cs) ≠ -1 := by simpa using hp
      obtain ⟨k, hk, hlo⟩ := pyRfind_cases t d start (start + cs) hne
      have hd1 : 1 ≤ d.length := delimList_length_pos d (List.mem_of_find?_eq_some hf)
      rw [hk]
      by_cases hst : 0 ≤ start
      · have hlt : start < (t.length : ℤ) := by omega
        have hnorm : pyNormLo t.length start = start.toNat := by
          unfold pyNormLo
          rw [if_neg (by omega)]
          have : start.toNat ≤ t.length := by omega
          exact min_eq_left this
        rw [hnorm] at hlo
        omega
      · omega
  · rw [if_neg hend]
    omega

/-- Claim C9 (amended): `start` strictly advances on every loop iteration
that appends a chunk; but on an iteration whose stripped chunk is empty —
as can happen on the very first chunk when a boundary delimiter is found
close to the chunk start — `start` can fail to advance (the progress guard
is disabled while the chunk list is empty), and `chunk_text` then loops
forever, as `claim_C9_counterexample` exhibits. -/
theorem claim_C9_amended (t : List Char) (cs co start : ℤ)
    (chunks : List Chunk) (hcs : 0 < cs) (hco0 : 0 ≤ co) (hco : co < cs)
    (happ : chunks.length < (chunkStep t cs co (start, chunks)).2.length) :
    start < (chunkStep t cs co (start, chunks)).1 := by
  have hend := chunkEnd_gt t cs start hcs
  unfold chunkStep at happ ⊢
  dsimp only at happ ⊢
  by_cases hct : (pyStrip (pySlice t start (chunkEnd t cs start))).isEmpty
  · simp [hct] at happ
  · simp only [hct, Bool.false_eq_true, if_false, List.getLast?_concat] at happ ⊢
    by_cases hle : chunkEnd t cs start - co ≤ start
    · rw [if_pos hle]
      exact hend
    · rw [if_neg hle]
      omega

/-- Claim C9 counterexample: the text of two spaces followed by eight
letters, with chunk_size 5 and chunk_overlap 2 (satisfying the claim's
bounds): on the very first iteration the boundary backtracks to the last
space, the stripped chunk is empty, and `start` returns to exactly 0 while
the loop guard still holds — `chunk_text` never terminates (its fuel, which
suffices for any strictly advancing run, is exhausted). -/
theorem claim_C9_counterexample :
    (0 : ℤ) < 5 ∧ (0 : ℤ) ≤ 2 ∧ (2 : ℤ) < 5 ∧
    chunkStep t9 5 2 ((0 : ℤ), []) = ((0 : ℤ), []) ∧
    (0 : ℤ) < (t9.length : ℤ) ∧
    chunk_text t9 5 2 = none :=
  ⟨by decide, by decide, by decide, by decide, by decide, by decide⟩

/-- Claim C9 witness: an appending iteration (three letters, same bounds)
on which the amended theorem yields strict progress. -/
theorem claim_C9_witness :
    (0 : ℤ) < 5 ∧ (0 : ℤ) ≤ 2 ∧ (2 : ℤ) < 5 ∧
    ([] : List Chunk).length < (chunkStep tA3 5 2 ((0 : ℤ), [])).2.length ∧
    (0 : ℤ) < (chunkStep tA3 5 2 ((0 : ℤ), [])).1 :=
  ⟨by decide, by decide, by decide, by decide,
    claim_C9_amended tA3 5 2 0 [] (by decide) (by decide) (by decide)
      (by decide)⟩

end DbRag
